import Mathlib

/-!
Shallow embedding of `src/libANGLE/renderer/d3d/VertexBuffer.cpp` (ANGLE's
graphics-API-agnostic vertex-buffer layer): the streaming bump-allocator arena
(`StreamingVertexBufferInterface`), the static attribute-signature cache
(`StaticVertexBufferInterface`), the 16-byte-aligned space calculator
(`VertexBufferInterface::getSpaceRequired`) and the buffer serial counter
(`VertexBuffer::updateSerial`).

Machine integers: C++ `unsigned int` values are embedded as `Nat` with explicit
reduction modulo `2^32` at each operation where the C++ arithmetic can wrap.
External collaborators (the `BufferFactoryD3D` factory and the backend
`VertexBuffer` object) are embedded as oracles: their results for one call are
parameters of each operation, and a failing collaborator call makes the
operation return the propagated error exactly where the C++ `ANGLE_TRY` would.
-/

/-- Modulus of C++ 32-bit `unsigned int` arithmetic: `2^32`. -/
def uintMod : Nat := 4294967296

/-- Errors of `gl::Error` as far as this file distinguishes them:
`outOfMemory` is a `gl::OutOfMemory()` raised by the embedded code itself,
`external` is any error propagated by `ANGLE_TRY` from a collaborator call. -/
inductive GLError where
  | outOfMemory
  | external
deriving DecidableEq

/-- Modelled from the spec: `roundUp(value, alignment)` from `common/mathutil.h`
(used by `getSpaceRequired` but not part of this excerpt) rounds `value` up to
the next multiple of `alignment`; the C++ computes `temp = value + alignment - 1`
in wrapping 32-bit unsigned arithmetic and returns `temp - temp % alignment`. -/
def roundUp (value alignment : Nat) : Nat :=
  (value + alignment - 1) % uintMod - (value + alignment - 1) % uintMod % alignment

/-- Mathematical 16-byte alignment: `16 * ((r + 15) / 16)` is the smallest
multiple of 16 that is at least `r`, as an unbounded natural number. -/
def alignedOf (r : Nat) : Nat := 16 * ((r + 15) / 16)

/-- VertexBufferInterface::getSpaceRequired (VertexBuffer.cpp lines 93-115):
asks the factory for the unaligned space (`factorySpace` is the oracle for
`mFactory->getVertexSpaceRequired`, `none` meaning that call failed), aligns it
to a 16-byte boundary with `roundUp`, and reports `OutOfMemory` when the
aligned value wrapped below the unaligned one. -/
def getSpaceRequired (factorySpace : Option Nat) : Except GLError Nat :=
  match factorySpace with
  | none => .error .external
  | some spaceRequired =>
    if roundUp spaceRequired 16 < spaceRequired then .error .outOfMemory
    else .ok (roundUp spaceRequired 16)

/-- Mutable state of a `StreamingVertexBufferInterface`: the capacity of the
underlying buffer (`mVertexBuffer->getBufferSize()`), the write cursor
`mWritePosition` and the pending reservation `mReservedSpace`. All three are
C++ `unsigned int` fields. -/
structure StreamingState where
  bufferSize : Nat
  writePosition : Nat
  reservedSpace : Nat
deriving DecidableEq

/-- Oracle for the external collaborator calls made during one streaming
operation: the factory's `getVertexSpaceRequired` result (`none` = error), and
the success of the backend buffer's `setBufferSize`/`initialize` (as a function
of the requested size), `discard`, and `storeVertexAttributes` calls. On
success `setBufferSize` leaves the buffer with exactly the requested capacity
(spec section 3: capacity is 0 or a value accepted by a successful resize). -/
structure BufferEnv where
  vertexSpaceRequired : Option Nat
  setBufferSizeOk : Nat → Bool
  discardOk : Bool
  storeOk : Bool

/-- StreamingVertexBufferInterface::reserveSpace (VertexBuffer.cpp lines
152-168). `size > curBufferSize` grows the buffer to
`std::max(size, 3 * curBufferSize / 2)` — the product `3 * curBufferSize` is
computed in wrapping 32-bit unsigned arithmetic — and resets the cursor;
otherwise `mWritePosition + size > curBufferSize` (again a wrapping 32-bit sum)
discards the buffer and resets the cursor; otherwise nothing happens. A failed
collaborator call returns before the cursor assignment, leaving the state
unchanged, which the embedding renders by returning only the error. -/
def reserveSpace (env : BufferEnv) (s : StreamingState) (size : Nat) :
    Except GLError StreamingState :=
  if size > s.bufferSize then
    if env.setBufferSizeOk (max size ((3 * s.bufferSize) % uintMod / 2)) then
      .ok ⟨max size ((3 * s.bufferSize) % uintMod / 2), 0, s.reservedSpace⟩
    else .error .external
  else if (s.writePosition + size) % uintMod > s.bufferSize then
    if env.discardOk then .ok ⟨s.bufferSize, 0, s.reservedSpace⟩
    else .error .external
  else .ok s

instance {ε α : Type} [DecidableEq ε] [DecidableEq α] : DecidableEq (Except ε α) :=
  fun a b =>
    match a, b with
    | .error e, .error f =>
      if h : e = f then .isTrue (by rw [h]) else .isFalse (fun hh => by cases hh; exact h rfl)
    | .ok x, .ok y =>
      if h : x = y then .isTrue (by rw [h]) else .isFalse (fun hh => by cases hh; exact h rfl)
    | .error _, .ok _ => .isFalse (fun hh => by cases hh)
    | .ok _, .error _ => .isFalse (fun hh => by cases hh)

/-- Result of one `storeDynamicAttribute` call: the returned stream offset (or
the error), together with the arena state after the call. The C++ method
mutates its fields in place; an early `return` keeps every field assigned so
far, so the embedding threads the state explicitly and each error case carries
the state at the corresponding `return` statement. -/
structure StoreResult where
  outcome : Except GLError Nat
  post : StreamingState
deriving DecidableEq

/-- StreamingVertexBufferInterface::storeDynamicAttribute (VertexBuffer.cpp
lines 170-207): computes the aligned space, fails with `OutOfMemory` when
`mWritePosition + spaceRequired` would overflow `unsigned int` (the
`CheckedNumeric` guard), flushes the pending reservation through
`reserveSpace`, zeroes `mReservedSpace`, performs the collaborator write at the
cursor, returns the cursor as the stream offset and advances it by the aligned
space (a wrapping 32-bit `+=`, though the guard keeps it in range). -/
def storeDynamicAttribute (env : BufferEnv) (s : StreamingState) : StoreResult :=
  match getSpaceRequired env.vertexSpaceRequired with
  | .error e => ⟨.error e, s⟩
  | .ok spaceRequired =>
    if uintMod ≤ s.writePosition + spaceRequired then
      ⟨.error .outOfMemory, s⟩
    else
      match reserveSpace env s s.reservedSpace with
      | .error e => ⟨.error e, s⟩
      | .ok s1 =>
        if env.storeOk then
          ⟨.ok s1.writePosition,
            ⟨s1.bufferSize, (s1.writePosition + spaceRequired) % uintMod, 0⟩⟩
        else ⟨.error .external, ⟨s1.bufferSize, s1.writePosition, 0⟩⟩

/-- StreamingVertexBufferInterface::reserveVertexSpace (VertexBuffer.cpp lines
209-234): asks the factory for the unaligned space, aligns it to 16 bytes and
accumulates it into `mReservedSpace`; the alignment and the accumulation are
overflow-checked (`CheckedRoundUp` / `CheckedNumeric`, modelled from the spec:
the checked-arithmetic helpers live in `common/mathutil.h`, outside this
excerpt) and an overflow reports `OutOfMemory` without mutating the state. -/
def reserveVertexSpace (factorySpace : Option Nat) (s : StreamingState) :
    Except GLError StreamingState :=
  match factorySpace with
  | none => .error .external
  | some requiredSpace =>
    if requiredSpace + 15 < uintMod ∧ alignedOf requiredSpace + s.reservedSpace < uintMod then
      .ok ⟨s.bufferSize, s.writePosition, alignedOf requiredSpace + s.reservedSpace⟩
    else .error .outOfMemory

/-- Oracle under which every external collaborator call succeeds and the
factory reports `r` unaligned bytes for the attribute of the current call. -/
def happyEnv (r : Nat) : BufferEnv := ⟨some r, fun _ => true, true, true⟩

/-- Oracle under which every external collaborator call succeeds; the factory
is never consulted by the operations this oracle is used with. -/
def allOkEnv : BufferEnv := ⟨none, fun _ => true, true, true⟩

/-- Run a sequence of `storeDynamicAttribute` calls, one per factory size in
`rs`, with every collaborator call succeeding; collects the returned stream
offsets and the final arena state, stopping at the first error. -/
def runStores : List Nat → StreamingState → Except GLError (List Nat × StreamingState)
  | [], s => .ok ([], s)
  | r :: rs, s =>
    match (storeDynamicAttribute (happyEnv r) s).outcome,
          (storeDynamicAttribute (happyEnv r) s).post with
    | .error e, _ => .error e
    | .ok off, s1 =>
      match runStores rs s1 with
      | .error e => .error e
      | .ok (offs, fin) => .ok (off :: offs, fin)

/-- Sum of the 16-byte-aligned sizes of a list of factory (unaligned) sizes. -/
def sumAligned : List Nat → Nat
  | [] => 0
  | r :: rs => alignedOf r + sumAligned rs

/-- Stream offsets a sequence of stores returns when started at cursor `p`:
each call returns the current cursor and advances it by the aligned size. -/
def offsetsFrom : List Nat → Nat → List Nat
  | [], _ => []
  | r :: rs, p => p :: offsetsFrom rs (p + alignedOf r)

/-- One vertex-attribute descriptor together with the two values the code
derives from it and its binding. `type`, `size`, `normalized` and
`pureInteger` are the fields read directly off `gl::VertexAttribute`.
Modelled from the spec: `stride` and `offset` stand for
`ComputeVertexAttributeStride(attrib, binding)` (a `size_t`) and
`ComputeVertexAttributeOffset(attrib, binding)` cast to `size_t`, both
computed in `libANGLE/VertexAttribute.h`, which is not part of this excerpt;
the spec describes them as the byte stride/offset derived from the binding,
and the embedding carries them as fields of the descriptor. -/
structure VertexAttrib where
  type : Nat
  size : Nat
  normalized : Bool
  pureInteger : Bool
  stride : Nat
  offset : Nat
deriving DecidableEq

/-- StaticVertexBufferInterface::AttributeSignature (VertexBuffer.cpp lines
237-269): the cached layout snapshot. `stride` holds a `GLuint` (the `set`
method narrows the computed stride with `static_cast<GLuint>`), `offset` holds
the computed offset reduced modulo the computed stride. -/
structure AttributeSignature where
  type : Nat
  size : Nat
  stride : Nat
  normalized : Bool
  pureInteger : Bool
  offset : Nat
deriving DecidableEq

/-- AttributeSignature::matchesAttribute (VertexBuffer.cpp lines 242-257):
false as soon as the type, component count, stride (the cached `stride` read
back through `static_cast<GLuint>`, hence modulo `2^32`), normalization flag
or integer flag differs; otherwise compares the cached normalized offset with
the descriptor's computed offset modulo its computed stride. -/
def AttributeSignature.matchesAttribute (sig : AttributeSignature) (a : VertexAttrib) : Bool :=
  if sig.type != a.type || sig.size != a.size || (sig.stride % uintMod) != a.stride
      || sig.normalized != a.normalized || sig.pureInteger != a.pureInteger then
    false
  else
    sig.offset == a.offset % a.stride

/-- AttributeSignature::set (VertexBuffer.cpp lines 259-269): snapshots the
descriptor; the stride is narrowed to `GLuint` (`static_cast`, modulo `2^32`)
and the stored offset is the computed offset modulo the (unnarrowed) computed
stride. -/
def AttributeSignature.set (a : VertexAttrib) : AttributeSignature :=
  ⟨a.type, a.size, a.stride % uintMod, a.normalized, a.pureInteger, a.offset % a.stride⟩

/-- Mutable state of a `StaticVertexBufferInterface`: the cached signature
`mSignature` and the capacity of the underlying buffer. -/
structure StaticState where
  signature : AttributeSignature
  bufferSize : Nat
deriving DecidableEq

/-- Oracle for the collaborator calls of one `storeStaticAttribute` call:
the factory's `getVertexSpaceRequired` result, and the success of the backend
buffer's `setBufferSize` and `storeVertexAttributes` calls. -/
structure StaticEnv where
  vertexSpaceRequired : Option Nat
  setBufferSizeOk : Bool
  storeOk : Bool

/-- StaticVertexBufferInterface::matchesAttribute (VertexBuffer.cpp lines
280-284): delegates to the cached signature. -/
def StaticState.matchesAttribute (st : StaticState) (a : VertexAttrib) : Bool :=
  st.signature.matchesAttribute a

/-- StaticVertexBufferInterface::setAttribute (VertexBuffer.cpp lines 286-290):
delegates to `AttributeSignature::set`. -/
def StaticState.setAttribute (st : StaticState) (a : VertexAttrib) : StaticState :=
  ⟨AttributeSignature.set a, st.bufferSize⟩

/-- StaticVertexBufferInterface::storeStaticAttribute (VertexBuffer.cpp lines
292-311): computes the aligned space, resizes the buffer to exactly that size,
writes the data at destination offset 0 (the literal `0` passed to
`storeVertexAttributes`), and only then overwrites the cached signature. Each
failing step returns at the corresponding `ANGLE_TRY`, keeping the fields
assigned so far (the signature is untouched on every failure path; the
capacity has already changed if only the final write failed). The
`ASSERT(attrib.enabled)` is a debug-build invariant and carries no release
semantics. -/
def storeStaticAttribute (env : StaticEnv) (st : StaticState) (a : VertexAttrib) :
    Except GLError Unit × StaticState :=
  match getSpaceRequired env.vertexSpaceRequired with
  | .error e => (.error e, st)
  | .ok spaceRequired =>
    if env.setBufferSizeOk then
      if env.storeOk then
        (.ok (), ⟨AttributeSignature.set a, spaceRequired⟩)
      else (.error .external, ⟨st.signature, spaceRequired⟩)
    else (.error .external, st)

/-- Successor of the global `VertexBuffer::mNextSerial` counter: a C++
`unsigned int` post-increment, so it wraps modulo `2^32`. -/
def nextSerialOf (c : Nat) : Nat := (c + 1) % uintMod

/-- Serial assigned by `VertexBuffer::updateSerial` (VertexBuffer.cpp lines
21-35) to the `n`-th `VertexBuffer` constructed in the process, counting from
0: `mNextSerial` starts at 1 and each construction hands out its current value
and increments it (wrapping, as `mNextSerial` is an `unsigned int`). -/
def serialOf : Nat → Nat
  | 0 => 1
  | n + 1 => nextSerialOf (serialOf n)

/-- The end-to-end scenario of the spec: a streaming arena of capacity 1024,
then three attributes of 100, 200 and 800 bytes, each first reserved through
`reserveVertexSpace` and then stored through `storeDynamicAttribute`, with
every collaborator call succeeding; yields the three returned stream offsets
and the final arena state. -/
def scenarioRun : Except GLError (List Nat × StreamingState) := do
  let s0 : StreamingState := ⟨1024, 0, 0⟩
  let s1 ← reserveVertexSpace (some 100) s0
  let r1 := storeDynamicAttribute (happyEnv 100) s1
  let o1 ← r1.outcome
  let s2 ← reserveVertexSpace (some 200) r1.post
  let r2 := storeDynamicAttribute (happyEnv 200) s2
  let o2 ← r2.outcome
  let s3 ← reserveVertexSpace (some 800) r2.post
  let r3 := storeDynamicAttribute (happyEnv 800) s3
  let o3 ← r3.outcome
  return ([o1, o2, o3], r3.post)

/-- For an unaligned size whose 16-byte round-up stays in `unsigned int`
range, the wrapping `roundUp` agrees with the mathematical alignment. -/
theorem roundUp16_eq (r : Nat) (h : r + 15 < uintMod) : roundUp r 16 = alignedOf r := by
  unfold roundUp alignedOf
  rw [Nat.mod_eq_of_lt (by omega)]
  omega

/-- For an unaligned size whose 16-byte round-up stays in `unsigned int`
range, `getSpaceRequired` succeeds with the mathematical alignment. -/
theorem getSpaceRequired_ok (r : Nat) (h : r + 15 < uintMod) :
    getSpaceRequired (some r) = .ok (alignedOf r) := by
  have hr := roundUp16_eq r h
  have hge : ¬ roundUp r 16 < r := by rw [hr]; unfold alignedOf; omega
  show (if roundUp r 16 < r then Except.error GLError.outOfMemory
        else Except.ok (roundUp r 16)) = Except.ok (alignedOf r)
  rw [if_neg hge, hr]

/-- C4: for every factory-reported size `r` (an `unsigned int`, so `r < 2^32`),
`getSpaceRequired` returns the smallest multiple of 16 that is `≥ r` whenever
such a multiple is representable in `unsigned int` (that is, `r + 15 < 2^32`),
and returns the `OutOfMemory` overflow error — never a truncated value — when
no such multiple is representable. -/
theorem getSpaceRequired_alignment_law (r : Nat) (hr : r < uintMod) :
    (r + 15 < uintMod →
      getSpaceRequired (some r) = .ok (alignedOf r) ∧
      16 ∣ alignedOf r ∧ r ≤ alignedOf r ∧
      ∀ m, 16 ∣ m → r ≤ m → alignedOf r ≤ m) ∧
    (uintMod ≤ r + 15 → getSpaceRequired (some r) = .error .outOfMemory) := by
  constructor
  · intro h
    refine ⟨getSpaceRequired_ok r h, ⟨(r + 15) / 16, rfl⟩, by unfold alignedOf; omega, ?_⟩
    rintro m ⟨k, rfl⟩ hm
    unfold alignedOf
    omega
  · intro h
    have h0 : roundUp r 16 < r := by
      unfold roundUp
      unfold uintMod at *
      omega
    simp [getSpaceRequired, h0]

/-- Witness for C4: at `r = 100` the result is the aligned 112, and at
`r = 2^32 - 1` the overflow error is reported. -/
theorem getSpaceRequired_alignment_law_witness :
    getSpaceRequired (some 100) = .ok (alignedOf 100) ∧
    getSpaceRequired (some (uintMod - 1)) = .error .outOfMemory :=
  ⟨((getSpaceRequired_alignment_law 100 (by decide)).1 (by decide)).1,
   (getSpaceRequired_alignment_law (uintMod - 1) (by decide)).2 (by decide)⟩

/-- C2 (amended): for a requested size `s` strictly above the capacity `c`, a
successful `reserveSpace` call leaves the buffer with capacity exactly
`max s ((3 * c mod 2^32) / 2)` and resets the cursor to 0; this capacity is
always at least `s`, and at least `⌊3c/2⌋ = ⌊1.5 c⌋` whenever the product
`3 * c` does not overflow `unsigned int`. -/
theorem reserveSpace_grow (env : BufferEnv) (c p res s : Nat) (hgrow : c < s)
    (hok : env.setBufferSizeOk (max s ((3 * c) % uintMod / 2)) = true) :
    reserveSpace env ⟨c, p, res⟩ s = .ok ⟨max s ((3 * c) % uintMod / 2), 0, res⟩ ∧
    s ≤ max s ((3 * c) % uintMod / 2) ∧
    (3 * c < uintMod → 3 * c / 2 ≤ max s ((3 * c) % uintMod / 2)) := by
  refine ⟨?_, Nat.le_max_left _ _, ?_⟩
  · simp [reserveSpace, hgrow, hok]
  · intro h3
    rw [Nat.mod_eq_of_lt h3]
    exact Nat.le_max_right _ _

/-- Witness for C2 amended: capacity 1024, request 2048; the buffer grows to
`max 2048 1536 = 2048` and the cursor resets. -/
theorem reserveSpace_grow_witness :
    reserveSpace allOkEnv ⟨1024, 0, 0⟩ 2048 = .ok ⟨max 2048 ((3 * 1024) % uintMod / 2), 0, 0⟩ ∧
    2048 ≤ max 2048 ((3 * 1024) % uintMod / 2) ∧
    (3 * 1024 < uintMod → 3 * 1024 / 2 ≤ max 2048 ((3 * 1024) % uintMod / 2)) :=
  reserveSpace_grow allOkEnv 1024 0 0 2048 (by decide) (by decide)

/-- C2 counterexample: at capacity `c = 3` and request `s = 4 > 3`, the code
grows the buffer to `max(4, 3*3/2) = max(4, 4) = 4` bytes, but
`max(s, 1.5 × c) = max(4, 4.5) = 4.5`, so the resulting capacity 4 is *not*
at least `1.5 × c` (`3 * 3 ≤ 2 * 4` fails): integer division loses the half. -/
theorem reserveSpace_grow_cex :
    3 < 4 ∧ reserveSpace allOkEnv ⟨3, 0, 0⟩ 4 = .ok ⟨4, 0, 0⟩ ∧ ¬ 3 * 3 ≤ 2 * 4 :=
  ⟨by decide, by decide, by decide⟩

/-- C3 (amended): whenever the requested size fits the capacity (`s ≤ c`) but
the *wrapping 32-bit* sum `(cursor + s) mod 2^32` exceeds the capacity — which
is the comparison the code performs — a successful `reserveSpace` call takes
the discard path: capacity unchanged, cursor reset to 0, no resize. -/
theorem reserveSpace_discard (env : BufferEnv) (c p res s : Nat)
    (hfit : s ≤ c) (hover : c < (p + s) % uintMod) (hd : env.discardOk = true) :
    reserveSpace env ⟨c, p, res⟩ s = .ok ⟨c, 0, res⟩ := by
  have hno : ¬ c < s := by omega
  simp [reserveSpace, hno, hover, hd]

/-- Witness for C3 amended: capacity 16, cursor 8, size 16: `8 + 16 = 24 > 16`,
so the buffer is discarded, capacity stays 16 and the cursor resets. -/
theorem reserveSpace_discard_witness :
    reserveSpace allOkEnv ⟨16, 8, 0⟩ 16 = .ok ⟨16, 0, 0⟩ :=
  reserveSpace_discard allOkEnv 16 8 0 16 (by decide) (by decide) (by decide)

/-- C3 counterexample: capacity `c = 1`, cursor `2^32 - 1`, size `s = 1`. The
claim's hypotheses hold with mathematical arithmetic (`cursor + s = 2^32 > 1`
and `s ≤ c`), but the code compares the wrapped sum `(2^32 - 1 + 1) mod 2^32
= 0 ≤ 1`, takes neither branch, and leaves the cursor at `2^32 - 1 ≠ 0`
instead of resetting it. -/
theorem reserveSpace_discard_cex :
    1 ≤ 1 ∧ 1 < (uintMod - 1) + 1 ∧
    reserveSpace allOkEnv ⟨1, uintMod - 1, 0⟩ 1 = .ok ⟨1, uintMod - 1, 0⟩ ∧
    uintMod - 1 ≠ 0 :=
  ⟨by decide, by decide, by decide, by decide⟩

/-- C5: when the aligned required space added to the current write cursor
would overflow `unsigned int`, `storeDynamicAttribute` returns the overflow
error and the arena state — cursor, pending reservation and buffer — is left
exactly as it was before the call. -/
theorem storeDynamicAttribute_overflow (env : BufferEnv) (s : StreamingState) (a : Nat)
    (hspace : getSpaceRequired env.vertexSpaceRequired = .ok a)
    (hov : uintMod ≤ s.writePosition + a) :
    storeDynamicAttribute env s = ⟨.error .outOfMemory, s⟩ := by
  unfold storeDynamicAttribute
  rw [hspace]
  simp [hov]

/-- Witness for C5: an aligned request of 32 bytes on top of cursor
`2^32 - 16` overflows; the call fails and the state is untouched. -/
theorem storeDynamicAttribute_overflow_witness :
    storeDynamicAttribute ⟨some 32, fun _ => true, true, true⟩ ⟨1024, uintMod - 16, 48⟩ =
      ⟨.error .outOfMemory, ⟨1024, uintMod - 16, 48⟩⟩ :=
  storeDynamicAttribute_overflow ⟨some 32, fun _ => true, true, true⟩ ⟨1024, uintMod - 16, 48⟩ 32
    (by decide) (by decide)

/-- Unconditional characterization of `AttributeSignature::matchesAttribute`:
true exactly when every compared field agrees, with the cached stride read
back modulo `2^32` (the `static_cast<GLuint>`) and the descriptor offset
reduced modulo the descriptor stride. -/
theorem matchesAttribute_eq (sig : AttributeSignature) (a : VertexAttrib) :
    sig.matchesAttribute a = true ↔
      (sig.type = a.type ∧ sig.size = a.size ∧ sig.stride % uintMod = a.stride ∧
       sig.normalized = a.normalized ∧ sig.pureInteger = a.pureInteger ∧
       sig.offset = a.offset % a.stride) := by
  unfold AttributeSignature.matchesAttribute
  split
  next hcond =>
    constructor
    · intro hF
      exact absurd hF (by simp)
    · rintro ⟨h1, h2, h3, h4, h5, h6⟩
      simp only [Bool.or_eq_true, bne_iff_ne, ne_eq] at hcond
      rcases hcond with (((h | h) | h) | h) | h
      · exact absurd h1 h
      · exact absurd h2 h
      · exact absurd h3 h
      · exact absurd h4 h
      · exact absurd h5 h
  next hcond =>
    simp only [Bool.or_eq_true, bne_iff_ne, ne_eq, not_or, not_not] at hcond
    obtain ⟨⟨⟨⟨h1, h2⟩, h3⟩, h4⟩, h5⟩ := hcond
    simp [beq_iff_eq, h1, h2, h3, h4, h5]

/-- C6: for every cached signature (whose stride field, written by
`AttributeSignature::set`, is a `GLuint` and hence below `2^32`) and every
descriptor, `matchesAttribute` returns true if and only if the component
type, component count, computed stride, normalization flag and integer flag
all equal the cached fields and the computed byte offset modulo the computed
stride equals the cached normalized offset. -/
theorem matchesAttribute_iff (sig : AttributeSignature) (a : VertexAttrib)
    (hs : sig.stride < uintMod) :
    sig.matchesAttribute a = true ↔
      (sig.type = a.type ∧ sig.size = a.size ∧ sig.stride = a.stride ∧
       sig.normalized = a.normalized ∧ sig.pureInteger = a.pureInteger ∧
       sig.offset = a.offset % a.stride) := by
  rw [matchesAttribute_eq, Nat.mod_eq_of_lt hs]

/-- Witness for C6: a signature for a 3-component float attribute with stride
12 and normalized offset 0 matches a descriptor with offset 24 = 2 × 12. -/
theorem matchesAttribute_iff_witness :
    AttributeSignature.matchesAttribute ⟨5126, 3, 12, false, false, 0⟩
      ⟨5126, 3, false, false, 12, 24⟩ = true :=
  (matchesAttribute_iff ⟨5126, 3, 12, false, false, 0⟩ ⟨5126, 3, false, false, 12, 24⟩
    (by decide)).mpr (by decide)

/-- A freshly `set` signature matches any descriptor that agrees on every
compared field and whose offset has the same remainder modulo the stride. -/
theorem set_matches_core (d e : VertexAttrib)
    (ht : e.type = d.type) (hsz : e.size = d.size)
    (hn : e.normalized = d.normalized) (hp : e.pureInteger = d.pureInteger)
    (hst : e.stride = d.stride) (hlt : d.stride < uintMod)
    (hoffeq : e.offset % e.stride = d.offset % d.stride) :
    (AttributeSignature.set d).matchesAttribute e = true := by
  rw [matchesAttribute_eq]
  simp only [AttributeSignature.set]
  refine ⟨ht.symm, hsz.symm, ?_, hn.symm, hp.symm, hoffeq.symm⟩
  rw [hst]
  unfold uintMod at *
  omega

/-- C7: after the signature is set from descriptor `d` (which is what a
successful `storeStaticAttribute` or a `setAttribute` call does),
`matchesAttribute` returns true for every descriptor `d'` identical to `d`
except that its byte offset differs from `d`'s by a whole multiple of the
(nonzero, `GLuint`-ranged) stride — and in particular for `d` itself. -/
theorem set_matchesAttribute_strideMultiple (d d' : VertexAttrib)
    (ht : d'.type = d.type) (hsz : d'.size = d.size)
    (hn : d'.normalized = d.normalized) (hp : d'.pureInteger = d.pureInteger)
    (hst : d'.stride = d.stride) (_hpos : 0 < d.stride) (hlt : d.stride < uintMod)
    (hoff : ∃ k, d'.offset = d.offset + k * d.stride ∨ d.offset = d'.offset + k * d.stride) :
    (AttributeSignature.set d).matchesAttribute d' = true ∧
    (AttributeSignature.set d).matchesAttribute d = true := by
  obtain ⟨k, hk⟩ := hoff
  have hoffeq : d'.offset % d'.stride = d.offset % d.stride := by
    rw [hst]
    rcases hk with h | h
    · rw [h, Nat.add_mul_mod_self_right]
    · rw [h, Nat.add_mul_mod_self_right]
  exact ⟨set_matches_core d d' ht hsz hn hp hst hlt hoffeq,
         set_matches_core d d rfl rfl rfl rfl rfl hlt rfl⟩

/-- Witness for C7, the spec's own test vector: stride 12, offsets 0 and 36
(36 = 3 × 12), same type, component count and flags. -/
theorem set_matchesAttribute_strideMultiple_witness :
    (AttributeSignature.set ⟨5126, 3, false, false, 12, 0⟩).matchesAttribute
      ⟨5126, 3, false, false, 12, 36⟩ = true ∧
    (AttributeSignature.set ⟨5126, 3, false, false, 12, 0⟩).matchesAttribute
      ⟨5126, 3, false, false, 12, 0⟩ = true :=
  set_matchesAttribute_strideMultiple ⟨5126, 3, false, false, 12, 0⟩
    ⟨5126, 3, false, false, 12, 36⟩ rfl rfl rfl rfl rfl (by decide) (by decide)
    ⟨3, Or.inl (by decide)⟩

/-- Closed form of the serial stream: the `n`-th constructed buffer receives
`(1 + n) mod 2^32`. -/
theorem serialOf_eq (n : Nat) : serialOf n = (1 + n) % uintMod := by
  induction n with
  | zero => decide
  | succ n ih =>
    unfold serialOf nextSerialOf
    rw [ih]
    unfold uintMod
    omega

/-- C9 (amended): serials of two `VertexBuffer` constructions are distinct
whenever the constructions are fewer than `2^32` apart — in particular the
first `2^32` buffers of a process all receive pairwise distinct serials. -/
theorem serialOf_distinct (i j : Nat) (hij : i < j) (hspan : j - i < uintMod) :
    serialOf i ≠ serialOf j := by
  rw [serialOf_eq, serialOf_eq]
  intro h
  have h' : Nat.ModEq uintMod (1 + i) (1 + j) := h
  have hd : uintMod ∣ (1 + j) - (1 + i) := (Nat.modEq_iff_dvd' (by omega)).mp h'
  have hle : uintMod ≤ (1 + j) - (1 + i) := Nat.le_of_dvd (by omega) hd
  omega

/-- Witness for C9 amended: buffers 0 and 1 receive different serials. -/
theorem serialOf_distinct_witness : serialOf 0 ≠ serialOf 1 :=
  serialOf_distinct 0 1 (by decide) (by decide)

/-- C9 counterexample: `mNextSerial` is a wrapping `unsigned int`, so the
construction number 0 and the construction number `2^32` both receive
serial 1 — within one (very long-lived) process, serials are reused. -/
theorem serialOf_reuse_cex : serialOf 0 = serialOf uintMod ∧ 0 ≠ uintMod := by
  constructor
  · rw [serialOf_eq 0, serialOf_eq uintMod]
    decide
  · decide

/-- C10: `storeStaticAttribute` overwrites the cached signature only when
every step (space computation, buffer resize, attribute write at offset 0)
succeeded; on any failure the cached signature — and with it every
`matchesAttribute` answer — is exactly what it was before the call. -/
theorem storeStaticAttribute_signature (env : StaticEnv) (st : StaticState) (d : VertexAttrib) :
    (∀ e, (storeStaticAttribute env st d).1 = .error e →
      (storeStaticAttribute env st d).2.signature = st.signature) ∧
    ((storeStaticAttribute env st d).1 = .ok () →
      (storeStaticAttribute env st d).2.signature = AttributeSignature.set d) := by
  cases hg : getSpaceRequired env.vertexSpaceRequired with
  | error e => simp [storeStaticAttribute, hg]
  | ok r =>
    cases hset : env.setBufferSizeOk <;> cases hstore : env.storeOk <;>
      simp [storeStaticAttribute, hg, hset, hstore]

/-- Witness for C10: a failing factory call leaves the signature untouched,
and a fully successful call installs the signature of the stored attribute. -/
theorem storeStaticAttribute_signature_witness :
    (storeStaticAttribute ⟨none, true, true⟩ ⟨⟨0, 0, 0, false, false, 0⟩, 0⟩
      ⟨5126, 3, false, false, 12, 0⟩).2.signature = (⟨0, 0, 0, false, false, 0⟩ : AttributeSignature) ∧
    (storeStaticAttribute ⟨some 100, true, true⟩ ⟨⟨0, 0, 0, false, false, 0⟩, 0⟩
      ⟨5126, 3, false, false, 12, 0⟩).2.signature =
      AttributeSignature.set ⟨5126, 3, false, false, 12, 0⟩ :=
  ⟨(storeStaticAttribute_signature ⟨none, true, true⟩ ⟨⟨0, 0, 0, false, false, 0⟩, 0⟩
      ⟨5126, 3, false, false, 12, 0⟩).1 .external (by decide),
   (storeStaticAttribute_signature ⟨some 100, true, true⟩ ⟨⟨0, 0, 0, false, false, 0⟩, 0⟩
      ⟨5126, 3, false, false, 12, 0⟩).2 (by decide)⟩

/-- With a zero pending reservation and the cursor within the capacity,
`reserveSpace` neither grows nor discards: the state is returned unchanged. -/
theorem reserveSpace_noop (env : BufferEnv) (c p res : Nat)
    (hp : p ≤ c) (hc : c < uintMod) :
    reserveSpace env ⟨c, p, res⟩ 0 = .ok ⟨c, p, res⟩ := by
  have h1 : ¬ (0 : Nat) > c := by omega
  have h2 : ¬ c < p % uintMod := by
    rw [Nat.mod_eq_of_lt (by omega)]
    omega
  simp [reserveSpace, h1, h2]

/-- A store whose aligned size still fits the capacity, on an arena with no
pending reservation and all collaborator calls succeeding, is a pure bump:
it returns the current cursor as the offset and advances the cursor by the
aligned size, leaving the capacity untouched. -/
theorem storeDynamicAttribute_bump (r c p : Nat) (hc : c < uintMod)
    (hfit : p + alignedOf r ≤ c) :
    storeDynamicAttribute (happyEnv r) ⟨c, p, 0⟩ = ⟨.ok p, ⟨c, p + alignedOf r, 0⟩⟩ := by
  have hr15 : r + 15 < uintMod := by
    unfold alignedOf at hfit
    unfold uintMod at *
    omega
  have hsp : getSpaceRequired (happyEnv r).vertexSpaceRequired = .ok (alignedOf r) :=
    getSpaceRequired_ok r hr15
  have hno : ¬ uintMod ≤ p + alignedOf r := by omega
  have hres : reserveSpace (happyEnv r) ⟨c, p, 0⟩ 0 = .ok ⟨c, p, 0⟩ :=
    reserveSpace_noop (happyEnv r) c p 0 (by omega) hc
  have hst : (happyEnv r).storeOk = true := rfl
  unfold storeDynamicAttribute
  rw [hsp]
  simp [hno, hres, hst, Nat.mod_eq_of_lt (show p + alignedOf r < uintMod by omega)]

/-- Running consecutive stores whose aligned sizes all fit within the
capacity returns the successive cursor positions as offsets and ends with the
cursor advanced by the total aligned size. -/
theorem runStores_fit (rs : List Nat) : ∀ c p : Nat, c < uintMod →
    p + sumAligned rs ≤ c →
    runStores rs ⟨c, p, 0⟩ = .ok (offsetsFrom rs p, ⟨c, p + sumAligned rs, 0⟩) := by
  induction rs with
  | nil =>
    intro c p hc h
    simp [runStores, offsetsFrom, sumAligned]
  | cons r rest ih =>
    intro c p hc h
    have hfit : p + alignedOf r ≤ c := by unfold sumAligned at h; omega
    have hstep := storeDynamicAttribute_bump r c p hc hfit
    have hrec := ih c (p + alignedOf r) hc (by unfold sumAligned at h; omega)
    simp [runStores, hstep, hrec, sumAligned, offsetsFrom, Nat.add_assoc]

/-- The head of a nonempty offset list is the starting cursor. -/
theorem offsetsFrom_getD_zero (rs : List Nat) (p : Nat) (h : rs ≠ []) :
    (offsetsFrom rs p).getD 0 0 = p := by
  cases rs with
  | nil => exact absurd rfl h
  | cons r rest => rfl

/-- Each offset plus the aligned size of its call equals the next offset. -/
theorem offsetsFrom_adjacent (rs : List Nat) : ∀ p i : Nat, i + 1 < rs.length →
    (offsetsFrom rs p).getD i 0 + alignedOf (rs.getD i 0) = (offsetsFrom rs p).getD (i + 1) 0 := by
  induction rs with
  | nil =>
    intro p i h
    simp at h
  | cons r rest ih =>
    intro p i hi
    cases i with
    | zero =>
      have hne : rest ≠ [] := by
        intro hcontra
        rw [hcontra] at hi
        simp at hi
      show p + alignedOf r = (offsetsFrom rest (p + alignedOf r)).getD 0 0
      rw [offsetsFrom_getD_zero rest (p + alignedOf r) hne]
    | succ i =>
      have hi' : i + 1 < rest.length := by
        simp only [List.length_cons] at hi
        omega
      exact ih (p + alignedOf r) i hi'

/-- When every aligned size is positive, the offsets are strictly
increasing. -/
theorem offsetsFrom_chain (rs : List Nat) (hpos : ∀ r ∈ rs, 0 < alignedOf r) :
    ∀ p, List.Chain' (· < ·) (offsetsFrom rs p) := by
  induction rs with
  | nil =>
    intro p
    simp [offsetsFrom]
  | cons r rest ih =>
    intro p
    have hrec := ih (fun x hx => hpos x (List.mem_cons_of_mem r hx)) (p + alignedOf r)
    rw [offsetsFrom]
    apply List.chain'_cons'.mpr
    refine ⟨?_, hrec⟩
    intro y hy
    have hr : 0 < alignedOf r := hpos r (List.mem_cons_self r rest)
    cases rest with
    | nil => simp [offsetsFrom] at hy
    | cons r2 rest2 =>
      simp [offsetsFrom] at hy
      omega

/-- C1 (amended): starting a streaming arena at cursor 0 with no pending
reservation, a sequence of `storeDynamicAttribute` calls whose aligned sizes
sum to less than the capacity (and during which no grow or discard occurs)
returns offsets that are exactly the partial sums of the aligned sizes: each
offset plus the aligned size of its call is at most (indeed equal to) the
next offset, so the returned ranges never overlap; when moreover every
aligned size is positive, the offsets are strictly increasing. -/
theorem storeDynamicAttribute_offsets (rs : List Nat) (c : Nat)
    (hc : c < uintMod) (hsum : sumAligned rs < c) :
    runStores rs ⟨c, 0, 0⟩ = .ok (offsetsFrom rs 0, ⟨c, sumAligned rs, 0⟩) ∧
    (∀ i, i + 1 < rs.length →
      (offsetsFrom rs 0).getD i 0 + alignedOf (rs.getD i 0) ≤
        (offsetsFrom rs 0).getD (i + 1) 0) ∧
    ((∀ r ∈ rs, 0 < alignedOf r) → List.Chain' (· < ·) (offsetsFrom rs 0)) := by
  refine ⟨?_, ?_, ?_⟩
  · have h := runStores_fit rs c 0 hc (by omega)
    simpa using h
  · intro i hi
    have h := offsetsFrom_adjacent rs 0 i hi
    omega
  · intro hpos
    exact offsetsFrom_chain rs hpos 0

/-- Witness for C1 amended: factory sizes 100 and 200 on a 1024-byte arena —
aligned sizes 112 and 208 sum to 320 < 1024, offsets are 0 and 112. -/
theorem storeDynamicAttribute_offsets_witness :
    runStores [100, 200] ⟨1024, 0, 0⟩ =
      .ok (offsetsFrom [100, 200] 0, ⟨1024, sumAligned [100, 200], 0⟩) ∧
    (∀ i, i + 1 < [100, 200].length →
      (offsetsFrom [100, 200] 0).getD i 0 + alignedOf ([100, 200].getD i 0) ≤
        (offsetsFrom [100, 200] 0).getD (i + 1) 0) ∧
    ((∀ r ∈ [100, 200], 0 < alignedOf r) → List.Chain' (· < ·) (offsetsFrom [100, 200] 0)) :=
  storeDynamicAttribute_offsets [100, 200] 1024 (by decide) (by decide)

/-- C1 counterexample: two calls whose factory (and hence aligned) size is 0
on a 16-byte arena satisfy the claim's hypothesis (aligned sizes sum to
0 < 16) and both succeed, but both return offset 0 — the returned offsets are
*not* strictly increasing (they are merely non-decreasing). -/
theorem storeDynamicAttribute_offsets_cex :
    runStores [0, 0] ⟨16, 0, 0⟩ = .ok ([0, 0], ⟨16, 0, 0⟩) ∧
    sumAligned [0, 0] < 16 ∧
    ¬ List.Chain' (· < ·) [0, 0] := by
  refine ⟨by decide, by decide, ?_⟩
  intro h
  have h0 := List.chain'_cons.mp h
  omega

/-- C8 (amended): the spec's end-to-end scenario — capacity 1024, then
attributes of 100, 200 and 800 bytes, each reserved and stored — returns
offsets 0, 112 and 0; before the third store the arena takes the *discard*
path, not a grow: 800 fits the 1024-byte capacity while cursor 320 + 800 =
1120 exceeds it, so the buffer is invalidated without resizing, the capacity
stays 1024 and the cursor resets to 0. -/
theorem scenario_discard_before_third :
    scenarioRun = .ok ([0, 112, 0], ⟨1024, 800, 0⟩) ∧
    reserveSpace (happyEnv 800) ⟨1024, 320, 800⟩ 800 = .ok ⟨1024, 0, 800⟩ ∧
    StreamingState.bufferSize ⟨1024, 800, 0⟩ = 1024 :=
  ⟨by decide, by decide, rfl⟩

/-- C8 counterexample: in the concrete scenario run the offsets are 0, 112, 0
as the claim predicts, but the capacity after the third store is still 1024 —
the buffer never grew, so no grow event happened before the third store (the
code discarded instead, since the 800-byte request fits the capacity). -/
theorem scenario_no_grow_cex :
    scenarioRun = .ok ([0, 112, 0], ⟨1024, 800, 0⟩) ∧
    ¬ 1024 < StreamingState.bufferSize ⟨1024, 800, 0⟩ :=
  ⟨by decide, by decide⟩
